import Mathlib

/-!
# Verification of the MeuFuturo Financial Insight & Recommendation Engine

Shallow embedding in Lean 4 of the analytics and prediction-lifecycle code of
the MeuFuturo backend (`services/ai_service.py`,
`services/recommendation_service.py`, `services/pattern_analysis_service.py`,
`services/simulation_service.py`, `repositories/ai_prediction.py`,
`repositories/base.py`, `models/budget.py`).

Modelling conventions:
* `Decimal` currency amounts and Python numeric values are modelled as `ℚ`.
* Timestamps and calendar dates are modelled as `ℕ` (an abstract totally
  ordered clock); `datetime.utcnow()` becomes an explicit `now : ℕ` argument.
* Database rows are modelled as Lean structures, a table as a `List` of rows;
  primary keys (uuid strings in the source) are modelled as `ℕ` keys.
* Python `round(x, k)` (banker's rounding) is modelled by `roundHalfEven`.
* Python `random.randint(a, b)` is modelled by an explicit extra argument
  carrying the drawn value, constrained to `a ≤ r ≤ b` in theorems.
-/

namespace MeuFuturo

/-! ## Rounding primitives (Python `round`) -/

/-- Round a rational to the nearest integer, ties to even
(the behaviour of Python's built-in `round`). -/
def roundHalfEven (q : ℚ) : ℤ :=
  let f := ⌊q⌋
  let r := q - (f : ℚ)
  if r < 1/2 then f
  else if 1/2 < r then f + 1
  else if f % 2 = 0 then f else f + 1

/-- Python `round(q, 2)`. -/
def round2 (q : ℚ) : ℚ := (roundHalfEven (q * 100) : ℚ) / 100

/-- Python `round(q, 1)`. -/
def round1 (q : ℚ) : ℚ := (roundHalfEven (q * 10) : ℚ) / 10

/-! ## Health Scorer (`AIService._calculate_health_score`)

The source computes a six-month transaction summary and derives a score,
label, risk level and trend.  The summary is the function's effective input;
the `random.randint(5, 10)` "expense diversity" bonus is made explicit as the
`diversityBonus` argument. -/

/-- The output of `TransactionRepository.get_transaction_summary`:
total income, total expenses, net amount and transaction count. -/
structure TransactionSummary where
  total_income : ℚ
  total_expenses : ℚ
  net_amount : ℚ
  transaction_count : ℕ
deriving DecidableEq, Repr

/-- The dictionary returned by `AIService._calculate_health_score`. -/
structure HealthScoreData where
  score : ℤ
  label : String
  risk_level : String
  trend : String
  income_expense_ratio : ℚ
  savings_rate : ℚ
deriving DecidableEq, Repr

/-- `AIService._calculate_health_score`, as a function of the transaction
summary and of the value drawn by `random.randint(5, 10)`. -/
def calculate_health_score (summary : TransactionSummary)
    (diversityBonus : ℤ) : HealthScoreData :=
  -- score = 50  (base score)
  let score0 : ℤ := 50
  -- Income vs Expenses ratio (0-30 points)
  let expense_ratio : ℚ :=
    if summary.total_income > 0 then summary.total_expenses / summary.total_income else 0
  let score1 : ℤ :=
    if summary.total_income > 0 then
      if expense_ratio < 1/2 then score0 + 30
      else if expense_ratio < 7/10 then score0 + 20
      else if expense_ratio < 9/10 then score0 + 10
      else if expense_ratio > 6/5 then score0 - 20
      else score0
    else score0 - 30
  -- Savings rate (0-25 points)
  let savings_rate : ℚ :=
    if summary.total_income > 0 then summary.net_amount / summary.total_income else 0
  let score2 : ℤ :=
    if summary.total_income > 0 then
      if savings_rate > 1/5 then score1 + 25
      else if savings_rate > 1/10 then score1 + 15
      else if savings_rate > 0 then score1 + 5
      else score1 - 15
    else score1 - 15
  -- Transaction consistency (0-15 points): int(min(1, count/30) * 15)
  let consistency : ℚ := min 1 ((summary.transaction_count : ℚ) / 30)
  let score3 : ℤ := score2 + Rat.floor (consistency * 15)
  -- Expense diversity (0-10 points): score += random.randint(5, 10)
  let score4 : ℤ := score3 + diversityBonus
  -- Cap score between 0 and 100
  let score : ℤ := max 0 (min 100 score4)
  let label : String :=
    if score ≥ 80 then "Excelente"
    else if score ≥ 60 then "Boa"
    else if score ≥ 40 then "Regular"
    else "Precisa Atenção"
  let risk_level : String :=
    if score ≥ 80 then "Muito Baixo"
    else if score ≥ 60 then "Baixo"
    else if score ≥ 40 then "Médio"
    else "Alto"
  let trend : String :=
    if summary.net_amount > 0 then "Positiva"
    else if summary.net_amount < -1000 then "Negativa"
    else "Estável"
  { score := score, label := label, risk_level := risk_level, trend := trend,
    income_expense_ratio := expense_ratio, savings_rate := savings_rate }

/-! ## Prediction Lifecycle Store
(`models/ai_prediction.py`, `repositories/base.py`, `repositories/ai_prediction.py`)

An `AIPrediction` table is modelled as a `List AIPrediction`; uuid string keys
are modelled as `ℕ` keys, timestamps as `ℕ`. -/

inductive PredictionType where
  | savings_projection
  | expense_forecast
  | income_prediction
  | financial_health
deriving DecidableEq, Repr

inductive PredictionStatus where
  | active
  | archived
  | dismissed
deriving DecidableEq, Repr

/-- The fields of `models/ai_prediction.py::AIPrediction` that the repository
operations under verification read or write. -/
structure AIPrediction where
  id : ℕ
  user_id : ℕ
  type : PredictionType
  confidence_score : ℚ
  expires_at : Option ℕ
  status : PredictionStatus
  created_at : ℕ
deriving DecidableEq, Repr

/-- The keyword arguments accepted by `BaseRepository.update` for this model.
A field holds `none` when the caller either omitted it or passed Python
`None`; the two are indistinguishable to `update`, which drops `None`
values. -/
structure UpdateKwargs where
  status : Option PredictionStatus := none
  expires_at : Option ℕ := none
  confidence_score : Option ℚ := none
deriving DecidableEq, Repr

namespace UpdateKwargs

/-- `update_data = {k: v for k, v in kwargs.items() if v is not None}` is
empty. -/
def isEmpty (k : UpdateKwargs) : Bool :=
  k.status.isNone && k.expires_at.isNone && k.confidence_score.isNone

/-- Apply the non-`None` keyword arguments to a row
(the `.values(**update_data)` clause). -/
def apply (k : UpdateKwargs) (p : AIPrediction) : AIPrediction :=
  { p with
    status := k.status.getD p.status,
    expires_at := match k.expires_at with
      | some t => some t
      | none => p.expires_at,
    confidence_score := k.confidence_score.getD p.confidence_score }

end UpdateKwargs

namespace BaseRepository

/-- `BaseRepository.get_by_id`. -/
def get_by_id (store : List AIPrediction) (id : ℕ) : Option AIPrediction :=
  store.find? (fun p => p.id == id)

/-- `BaseRepository.update`: drops `None` kwargs; with no remaining update
data it performs no write and returns the stored row; otherwise it writes the
remaining fields to every row with the given id and returns the updated row.
Result: `(returned row, new table state)`. -/
def update (store : List AIPrediction) (id : ℕ) (k : UpdateKwargs) :
    Option AIPrediction × List AIPrediction :=
  if k.isEmpty then (get_by_id store id, store)
  else
    ((get_by_id store id).map k.apply,
     store.map (fun p => if p.id == id then k.apply p else p))

end BaseRepository

namespace AIPredictionRepository

/-- The `WHERE` clause of `get_active_predictions`:
same user, status `active`, and `expires_at` null or strictly in the future,
plus the optional type filter. -/
def activeCond (user_id : ℕ) (ptype : Option PredictionType) (now : ℕ)
    (p : AIPrediction) : Bool :=
  p.user_id == user_id &&
  p.status == PredictionStatus.active &&
  (match p.expires_at with
    | none => true
    | some t => now < t) &&
  (match ptype with
    | none => true
    | some ty => p.type == ty)

/-- `AIPredictionRepository.get_active_predictions`,
ordered by `created_at` descending. -/
def get_active_predictions (store : List AIPrediction) (user_id : ℕ)
    (ptype : Option PredictionType) (now : ℕ) : List AIPrediction :=
  List.insertionSort (fun p q => q.created_at ≤ p.created_at)
    (store.filter (activeCond user_id ptype now))

/-- The `WHERE` clause of `get_expired_predictions`: `expires_at <= now`
(false on SQL `NULL`), status `active`, and the optional user filter. -/
def expiredCond (user_id : Option ℕ) (now : ℕ) (p : AIPrediction) : Bool :=
  (match p.expires_at with
    | none => false
    | some t => t ≤ now) &&
  p.status == PredictionStatus.active &&
  (match user_id with
    | none => true
    | some u => p.user_id == u)

/-- `AIPredictionRepository.get_expired_predictions`, ordered by `expires_at`
ascending and truncated to `limit` rows (default 100). -/
def get_expired_predictions (store : List AIPrediction) (user_id : Option ℕ)
    (now : ℕ) (limit : ℕ) : List AIPrediction :=
  (List.insertionSort
      (fun p q => p.expires_at.getD 0 ≤ q.expires_at.getD 0)
      (store.filter (expiredCond user_id now))).take limit

/-- `AIPredictionRepository.archive_prediction`:
`self.update(prediction_id, status=ARCHIVED)`. -/
def archive_prediction (store : List AIPrediction) (prediction_id : ℕ) :
    Option AIPrediction × List AIPrediction :=
  BaseRepository.update store prediction_id
    { status := some PredictionStatus.archived }

/-- `AIPredictionRepository.dismiss_prediction`:
`self.update(prediction_id, status=DISMISSED)`. -/
def dismiss_prediction (store : List AIPrediction) (prediction_id : ℕ) :
    Option AIPrediction × List AIPrediction :=
  BaseRepository.update store prediction_id
    { status := some PredictionStatus.dismissed }

/-- `BaseRepository.bulk_update` specialised to the status-only updates issued
by `archive_expired_predictions`: returns the summed rowcounts. -/
def bulk_update_count (store : List AIPrediction) (ids : List ℕ) : ℕ :=
  ids.foldl (fun acc i => acc + store.countP (fun p => p.id == i)) 0

/-- The tail of `archive_expired_predictions` once `expired_predictions` has
been fetched: `return 0` on an empty fetch, otherwise bulk-update the fetched
ids to `archived` and return the updated-row count.
Result: `(returned count, new table state)`. -/
def applyArchive (store expired : List AIPrediction) : ℕ × List AIPrediction :=
  if expired.isEmpty then (0, store)
  else
    (bulk_update_count store (expired.map (fun p => p.id)),
     store.map (fun p =>
       if (expired.map (fun p => p.id)).contains p.id then
         { p with status := PredictionStatus.archived }
       else p))

/-- `AIPredictionRepository.archive_expired_predictions`: fetches the expired
predictions (with the default `limit=100` of `get_expired_predictions`), bulk
updates their status to `archived`, and returns the updated-row count. -/
def archive_expired_predictions (store : List AIPrediction)
    (user_id : Option ℕ) (now : ℕ) : ℕ × List AIPrediction :=
  applyArchive store (get_expired_predictions store user_id now 100)

end AIPredictionRepository

/-! ## Transactions and budgets (inputs of the analytics services) -/

inductive TransactionType where
  | income
  | expense
deriving DecidableEq, Repr

/-- The fields of a transaction row that the analytics services read.
`transaction_date` is a calendar-day index. -/
structure Transaction where
  id : ℕ
  type : TransactionType
  amount : ℚ
  category_name : String
  transaction_date : ℕ
deriving DecidableEq, Repr

/-- The fields of `models/budget.py::Budget` read by the recommendation
generator. `category_name` is `none` when the budget has no category
(rendered as "Geral"). -/
structure Budget where
  amount : ℚ
  spent_amount : ℚ
  alert_threshold : ℤ
  category_name : Option String
deriving DecidableEq, Repr

namespace Budget

/-- `Budget.remaining_amount`. -/
def remaining_amount (b : Budget) : ℚ := max (b.amount - b.spent_amount) 0

/-- `Budget.spent_percentage` (0-100, capped). -/
def spent_percentage (b : Budget) : ℚ :=
  if b.amount = 0 then 0 else min (b.spent_amount / b.amount * 100) 100

/-- `Budget.is_exceeded`. -/
def isExceeded (b : Budget) : Bool := b.amount < b.spent_amount

/-- `Budget.is_near_limit`. -/
def isNearLimit (b : Budget) : Bool := (b.alert_threshold : ℚ) ≤ b.spent_percentage

end Budget

/-- First-occurrence deduplication (the iteration order of a Python dict
keyed by first insertion). -/
def firstOccur {α : Type} [DecidableEq α] (l : List α) : List α :=
  l.foldl (fun acc a => if a ∈ acc then acc else acc ++ [a]) []

/-! ## Recommendation Engine (`services/recommendation_service.py`) -/

/-- The fields of `PersonalizedRecommendation` the claims are about
(`title` carries the category the recommendation targets). -/
structure PersonalizedRecommendation where
  title : String
  category : String
  priority : String
  potential_impact : ℚ
  success_probability : ℚ
  ai_confidence : ℚ
deriving DecidableEq, Repr

namespace RecommendationService

/-- Total spend of `category` among the expense transactions
(one entry of the `category_spending` defaultdict). -/
def categorySpend (transactions : List Transaction) (category : String) : ℚ :=
  ((transactions.filter
      (fun t => t.type == TransactionType.expense && t.category_name == category)).map
    (fun t => t.amount)).sum

/-- Total of all expense transactions. -/
def totalExpenses (transactions : List Transaction) : ℚ :=
  ((transactions.filter (fun t => t.type == TransactionType.expense)).map
    (fun t => t.amount)).sum

/-- The expense categories in `category_spending` iteration order
(first touch of the defaultdict). -/
def expenseCategories (transactions : List Transaction) : List String :=
  firstOccur ((transactions.filter
      (fun t => t.type == TransactionType.expense)).map
    (fun t => t.category_name))

/-- `RecommendationService._generate_spending_recommendations`. -/
def generate_spending_recommendations (transactions : List Transaction) :
    List PersonalizedRecommendation :=
  let total := totalExpenses transactions
  if total = 0 then []
  else
    (expenseCategories transactions).filterMap (fun category =>
      let amount := categorySpend transactions category
      let percentage := amount / total * 100
      if percentage > 30 then
        let potential_savings := amount * (15/100)
        some
          { title := "Otimize Gastos com " ++ category,
            category := "Otimização de Gastos",
            priority := if percentage > 40 then "high" else "medium",
            potential_impact := potential_savings,
            success_probability := 75,
            ai_confidence := 82/100 }
      else none)

/-- `RecommendationService._generate_budget_recommendations` body: the loop
inside the `try` block, reached only when `self.budget_repo` resolves. -/
def budgetRecommendationsBody (budgets : List Budget) :
    List PersonalizedRecommendation :=
  budgets.filterMap (fun b =>
    if b.isNearLimit || b.isExceeded then
      let category_name := b.category_name.getD "Geral"
      some
        { title := "Atenção: Orçamento de " ++ category_name,
          category := "Orçamento",
          priority := if b.isExceeded then "urgent" else "high",
          potential_impact := b.remaining_amount,
          success_probability := 70,
          ai_confidence := 92/100 }
    else none)

/-- The attributes set by `RecommendationService.__init__`: it binds
`transaction_repo` and `goal_repo` but never `budget_repo`, so the
`budget_repo` slot is absent (`none`). -/
def initBudgetRepoAttr : Option Unit := none

/-- `RecommendationService._generate_budget_recommendations` as wired by
`__init__`: reading `self.budget_repo` raises `AttributeError` when the
attribute is absent, the `except Exception` handler swallows it, and the
accumulated (empty) list is returned. -/
def generate_budget_recommendations (budgetRepoAttr : Option Unit)
    (budgets : List Budget) : List PersonalizedRecommendation :=
  match budgetRepoAttr with
  | none => []
  | some _ => budgetRecommendationsBody budgets

/-- `RecommendationService._priority_score`. -/
def priority_score (priority : String) : ℕ :=
  if priority = "urgent" then 4
  else if priority = "high" then 3
  else if priority = "medium" then 2
  else if priority = "low" then 1
  else 0

end RecommendationService

/-! ## Pattern Analysis Engine (`services/pattern_analysis_service.py`) -/

namespace PatternAnalysisService

/-- One per-category entry of `_calculate_category_baselines`:
`{"min": min(amounts), "max": max(amounts), "avg": sum/len}`. -/
structure CategoryBaseline where
  min : ℚ
  max : ℚ
  avg : ℚ
deriving DecidableEq, Repr

/-- `PatternAnalysisService._calculate_category_baselines`: the baseline of a
category, `none` when the category has no expense transaction in the
historical window. -/
def calculate_category_baselines (transactions : List Transaction)
    (category : String) : Option CategoryBaseline :=
  let amounts := ((transactions.filter
      (fun t => t.type == TransactionType.expense && t.category_name == category)).map
    (fun t => t.amount))
  match amounts with
  | [] => none
  | a :: rest =>
    some
      { min := rest.foldl Min.min a,
        max := rest.foldl Max.max a,
        avg := (a :: rest).sum / ((a :: rest).length : ℚ) }

/-- The fields of an `AnomalyDetection` record.  The natural-language
`suggestion` string interpolates `suggestion_percentage`
(`(amount / avg - 1) * 100`, cf. `_generate_anomaly_suggestion`). -/
structure AnomalyDetection where
  transaction_id : ℕ
  category : String
  amount : ℚ
  expected_min : ℚ
  expected_max : ℚ
  anomaly_score : ℚ
  detected_at : ℕ
  is_recurring : Bool
  suggestion_percentage : ℚ
deriving DecidableEq, Repr

/-- The per-transaction body of the `detect_anomalies` loop: an expense
transaction whose category has a baseline is flagged when
`amount > baseline.max * 1.5`. -/
def anomalyFor (baselines : String → Option CategoryBaseline)
    (t : Transaction) : Option AnomalyDetection :=
  if t.type == TransactionType.expense then
    match baselines t.category_name with
    | none => none
    | some baseline =>
      if t.amount > baseline.max * (3/2) then
        let anomaly_score := min ((t.amount - baseline.max) / baseline.max) 1
        some
          { transaction_id := t.id,
            category := t.category_name,
            amount := t.amount,
            expected_min := baseline.min,
            expected_max := baseline.max,
            anomaly_score := round2 anomaly_score,
            detected_at := t.transaction_date,
            is_recurring := false,
            suggestion_percentage := (t.amount / baseline.avg - 1) * 100 }
      else none
  else none

/-- `PatternAnalysisService.detect_anomalies`: baselines from the historical
window, then one pass over the recent transactions. -/
def detect_anomalies (recent historical : List Transaction) :
    List AnomalyDetection :=
  recent.filterMap (anomalyFor (calculate_category_baselines historical))

/-- The distinct calendar days carrying at least one expense transaction
(the keys of the `daily_categories` dict, in insertion order). -/
def expenseDays (transactions : List Transaction) : List ℕ :=
  firstOccur ((transactions.filter
      (fun t => t.type == TransactionType.expense)).map
    (fun t => t.transaction_date))

/-- The set of categories spent on day `d`
(one value of the `daily_categories` dict). -/
def categoriesOnDay (transactions : List Transaction) (d : ℕ) : List String :=
  firstOccur ((transactions.filter
      (fun t => t.type == TransactionType.expense && t.transaction_date == d)).map
    (fun t => t.category_name))

/-- Number of calendar days on which both categories appear. -/
def coOccurrence (transactions : List Transaction) (cat1 cat2 : String) : ℕ :=
  (expenseDays transactions).countP (fun d =>
    (categoriesOnDay transactions d).contains cat1 &&
    (categoriesOnDay transactions d).contains cat2)

/-- The `categories_list` enumeration of `_analyze_category_correlations`
(`list(set(...))`; CPython's set iteration order over strings is
implementation-defined, fixed here to first occurrence). -/
def categoriesList (transactions : List Transaction) : List String :=
  firstOccur ((transactions.filter
      (fun t => t.type == TransactionType.expense)).map
    (fun t => t.category_name))

/-- The ordered pairs visited by the nested
`for i, cat1 ... for cat2 in categories_list[i+1:]` loops. -/
def catPairs : List String → List (String × String)
  | [] => []
  | c :: rest => (rest.map (fun c2 => (c, c2))) ++ catPairs rest

/-- One reported correlation entry
`{"categories": [...], "correlation": ..., "insight": ...}`. -/
structure CategoryCorrelation where
  categories : List String
  correlation : ℚ
  insight : String
deriving DecidableEq, Repr

/-- `PatternAnalysisService._analyze_category_correlations`: pairs with at
least 3 co-occurrence days, in pair-enumeration order, truncated to the first
3 (`return correlations[:3]`; the list is never sorted). -/
def analyze_category_correlations (transactions : List Transaction) :
    List CategoryCorrelation :=
  let numDays := (expenseDays transactions).length
  ((catPairs (categoriesList transactions)).filterMap (fun pr =>
      let co := coOccurrence transactions pr.1 pr.2
      if 3 ≤ co then
        some
          { categories := [pr.1, pr.2],
            correlation := round2 ((co : ℚ) / (numDays : ℚ)),
            insight := "Gastos com " ++ pr.1 ++
              " frequentemente acompanham " ++ pr.2 }
      else none)).take 3

end PatternAnalysisService

/-! ## Simulation Engine (`services/simulation_service.py`) -/

namespace SimulationService

/-- The income/expense adjustment percentages of a `FinancialSimulation`
scenario. -/
structure FinancialSimulation where
  income_adjustment : ℚ
  expense_adjustment : ℚ
deriving DecidableEq, Repr

/-- The output of `_calculate_historical_averages` (only the monthly income
and expense averages feed the trajectories). -/
structure HistoricalData where
  avg_monthly_income : ℚ
  avg_monthly_expenses : ℚ
deriving DecidableEq, Repr

/-- One month of a trajectory timeline. -/
structure TimelinePoint where
  month : ℕ
  income : ℚ
  expenses : ℚ
  savings : ℚ
  balance : ℚ
deriving DecidableEq, Repr

/-- A computed trajectory. -/
structure Trajectory where
  final_balance : ℚ
  total_savings : ℚ
  monthly_average : ℚ
  timeline : List TimelinePoint
deriving DecidableEq, Repr

/-- The common `for month in range(1, months + 1)` accumulation loop of
`_calculate_current_trajectory` and `_calculate_simulated_trajectory`,
run with the (possibly adjusted) constant monthly income and expenses. -/
def trajectoryFrom (monthly_income monthly_expenses : ℚ) (months : ℕ) :
    Trajectory :=
  let step := fun (acc : List TimelinePoint × ℚ) (month : ℕ) =>
    let monthly_savings := monthly_income - monthly_expenses
    let balance := acc.2 + monthly_savings
    (acc.1 ++ [{ month := month, income := monthly_income,
                 expenses := monthly_expenses, savings := monthly_savings,
                 balance := balance }],
     balance)
  let result := (List.range' 1 months).foldl step ([], 0)
  { final_balance := result.2,
    total_savings := result.2,
    monthly_average := if months > 0 then result.2 / (months : ℚ) else 0,
    timeline := result.1 }

/-- `SimulationService._calculate_current_trajectory`. -/
def calculate_current_trajectory (historical : HistoricalData) (months : ℕ) :
    Trajectory :=
  trajectoryFrom historical.avg_monthly_income historical.avg_monthly_expenses
    months

/-- `SimulationService._calculate_simulated_trajectory`: multiplies the
historical averages by `1 + adjustment/100` before running the same loop. -/
def calculate_simulated_trajectory (historical : HistoricalData)
    (simulation : FinancialSimulation) (months : ℕ) : Trajectory :=
  let income_multiplier := 1 + simulation.income_adjustment / 100
  let expense_multiplier := 1 + simulation.expense_adjustment / 100
  trajectoryFrom (historical.avg_monthly_income * income_multiplier)
    (historical.avg_monthly_expenses * expense_multiplier) months

/-- The output of `_calculate_comparison`. -/
structure Comparison where
  balance_difference : ℚ
  percentage_improvement : ℚ
  better_outcome : Bool
deriving DecidableEq, Repr

/-- `SimulationService._calculate_comparison`. -/
def calculate_comparison (current simulated : Trajectory) : Comparison :=
  let balance_diff := simulated.final_balance - current.final_balance
  let percentage_improvement :=
    if current.final_balance ≠ 0 then
      balance_diff / current.final_balance * 100
    else 0
  { balance_difference := balance_diff,
    percentage_improvement := round2 percentage_improvement,
    better_outcome := 0 < balance_diff }

end SimulationService

/-! ## Concrete inputs used by counterexamples and witnesses -/

/-- A six-month summary with income 1000, expenses 1000, net 0 and 30
transactions. -/
def healthSummaryEx : TransactionSummary :=
  { total_income := 1000, total_expenses := 1000, net_amount := 0,
    transaction_count := 30 }

/-- The §8 example scenario: three months with income R$5000/month and
expenses R$3000/month, of which "Dining" is R$1200/month. -/
def spendingTxsEx : List Transaction :=
  [ { id := 1, type := TransactionType.income, amount := 5000,
      category_name := "Salário", transaction_date := 0 },
    { id := 2, type := TransactionType.expense, amount := 1200,
      category_name := "Dining", transaction_date := 1 },
    { id := 3, type := TransactionType.expense, amount := 1800,
      category_name := "Moradia", transaction_date := 2 },
    { id := 4, type := TransactionType.income, amount := 5000,
      category_name := "Salário", transaction_date := 30 },
    { id := 5, type := TransactionType.expense, amount := 1200,
      category_name := "Dining", transaction_date := 31 },
    { id := 6, type := TransactionType.expense, amount := 1800,
      category_name := "Moradia", transaction_date := 32 },
    { id := 7, type := TransactionType.income, amount := 5000,
      category_name := "Salário", transaction_date := 60 },
    { id := 8, type := TransactionType.expense, amount := 1200,
      category_name := "Dining", transaction_date := 61 },
    { id := 9, type := TransactionType.expense, amount := 1800,
      category_name := "Moradia", transaction_date := 62 } ]

/-- Historical window with a single R$450 "Lazer" expense
(baseline min = max = avg = 450). -/
def anomalyHistEx : List Transaction :=
  [ { id := 1, type := TransactionType.expense, amount := 450,
      category_name := "Lazer", transaction_date := 0 } ]

/-- Recent window with a R$850 "Lazer" expense. -/
def anomalyRecentEx : List Transaction :=
  [ { id := 2, type := TransactionType.expense, amount := 850,
      category_name := "Lazer", transaction_date := 10 } ]

/-- Expense transactions over 12 calendar days for four categories, with
co-occurrence day counts (A,B)=3, (A,C)=3, (A,D)=3, (B,C)=1, (B,D)=1 and
(C,D)=5. -/
def correlationTxsEx : List Transaction :=
  let tx := fun (id : ℕ) (cat : String) (day : ℕ) =>
    { id := id, type := TransactionType.expense, amount := 10,
      category_name := cat, transaction_date := day : Transaction }
  [ tx 1 "A" 1, tx 2 "B" 1, tx 3 "C" 1,
    tx 4 "A" 2, tx 5 "B" 2, tx 6 "D" 2,
    tx 7 "A" 3, tx 8 "B" 3,
    tx 9 "A" 4, tx 10 "C" 4,
    tx 11 "A" 5, tx 12 "C" 5,
    tx 13 "A" 6, tx 14 "D" 6,
    tx 15 "A" 7, tx 16 "D" 7,
    tx 17 "C" 8, tx 18 "D" 8,
    tx 19 "C" 9, tx 20 "D" 9,
    tx 21 "C" 10, tx 22 "D" 10,
    tx 23 "C" 11, tx 24 "D" 11,
    tx 25 "C" 12, tx 26 "D" 12 ]

/-- A table with 101 stale active predictions (all expired at time 0). -/
def staleStoreEx : List AIPrediction :=
  (List.range 101).map (fun i =>
    { id := i, user_id := 0, type := PredictionType.financial_health,
      confidence_score := 1/2, expires_at := some 0,
      status := PredictionStatus.active, created_at := 0 })

/-- A table with a single stale active prediction (expired at time 0). -/
def smallStaleStoreEx : List AIPrediction :=
  [ { id := 1, user_id := 0, type := PredictionType.financial_health,
      confidence_score := 1/2, expires_at := some 0,
      status := PredictionStatus.active, created_at := 0 } ]

/-- A table holding one archived prediction. -/
def archivedStoreEx : List AIPrediction :=
  [ { id := 1, user_id := 0, type := PredictionType.financial_health,
      confidence_score := 1/2, expires_at := none,
      status := PredictionStatus.archived, created_at := 0 } ]

/-- A table holding one never-expiring active prediction of user 7. -/
def activeStoreEx : List AIPrediction :=
  [ { id := 1, user_id := 7, type := PredictionType.financial_health,
      confidence_score := 9/10, expires_at := none,
      status := PredictionStatus.active, created_at := 3 } ]

/-! ## Helper lemmas -/

theorem roundHalfEven_nonneg {q : ℚ} (h : 0 ≤ q) : 0 ≤ roundHalfEven q := by
  unfold roundHalfEven
  have hf : (0 : ℤ) ≤ ⌊q⌋ := Int.le_floor.mpr (by exact_mod_cast h)
  dsimp only
  split
  · exact hf
  · split
    · omega
    · split <;> omega

theorem roundHalfEven_le {q : ℚ} {n : ℤ} (h : q ≤ (n : ℚ)) : roundHalfEven q ≤ n := by
  unfold roundHalfEven
  have hf : ⌊q⌋ ≤ n := by
    have := Int.floor_le_floor h
    simpa using this
  dsimp only
  split
  · exact hf
  · -- in the remaining branches `1/2 ≤ q - ⌊q⌋`, so `⌊q⌋ < q ≤ n`, hence `⌊q⌋ + 1 ≤ n`
    rename_i h1
    push_neg at h1
    have hlt : (⌊q⌋ : ℚ) < q := by
      have h2 : (0 : ℚ) < 1/2 := by norm_num
      linarith
    have hn : ⌊q⌋ < n := by
      by_contra hcon
      push_neg at hcon
      have : (n : ℚ) ≤ (⌊q⌋ : ℚ) := by exact_mod_cast hcon
      linarith
    split
    · omega
    · split <;> omega

theorem round2_nonneg {q : ℚ} (h : 0 ≤ q) : 0 ≤ round2 q := by
  unfold round2
  have hr := roundHalfEven_nonneg (q := q * 100) (by positivity)
  have hc : (0 : ℚ) ≤ (roundHalfEven (q * 100) : ℚ) := by exact_mod_cast hr
  positivity

theorem round2_le_one {q : ℚ} (h : q ≤ 1) : round2 q ≤ 1 := by
  unfold round2
  have h100 : q * 100 ≤ ((100 : ℤ) : ℚ) := by push_cast; linarith
  have hr := roundHalfEven_le h100
  have hc : (roundHalfEven (q * 100) : ℚ) ≤ 100 := by exact_mod_cast hr
  linarith

/-! ## Claim theorems -/

/-- C1: the health-score calculation is NOT reproducible for identical
transaction summaries: with the same summary (income 1000, expenses 1000,
net 0, 30 transactions), the `random.randint(5, 10)` diversity bonus draw 5
yields score 55 / "Regular" / "Médio" while the equally possible draw 10
yields score 60 / "Boa" / "Baixo". -/
theorem healthScore_not_reproducible :
    ((5 : ℤ) ≥ 5 ∧ (5 : ℤ) ≤ 10) ∧ ((10 : ℤ) ≥ 5 ∧ (10 : ℤ) ≤ 10) ∧
    (calculate_health_score healthSummaryEx 5).score = 55 ∧
    (calculate_health_score healthSummaryEx 5).label = "Regular" ∧
    (calculate_health_score healthSummaryEx 5).risk_level = "Médio" ∧
    (calculate_health_score healthSummaryEx 10).score = 60 ∧
    (calculate_health_score healthSummaryEx 10).label = "Boa" ∧
    (calculate_health_score healthSummaryEx 10).risk_level = "Baixo" ∧
    calculate_health_score healthSummaryEx 5 ≠
      calculate_health_score healthSummaryEx 10 := by
  with_unfolding_all decide

/-- C9: a simulation with income and expense adjustments both 0 produces a
scenario trajectory identical (month by month) to the baseline trajectory,
a `balance_difference` of 0 and a `percentage_improvement` of 0, for every
set of historical monthly averages and every positive horizon. -/
theorem simulation_zero_adjustments (historical : SimulationService.HistoricalData)
    (months : ℕ) (h : 0 < months) :
    SimulationService.calculate_simulated_trajectory historical ⟨0, 0⟩ months =
      SimulationService.calculate_current_trajectory historical months ∧
    (SimulationService.calculate_comparison
        (SimulationService.calculate_current_trajectory historical months)
        (SimulationService.calculate_simulated_trajectory historical ⟨0, 0⟩ months)).balance_difference
      = 0 ∧
    (SimulationService.calculate_comparison
        (SimulationService.calculate_current_trajectory historical months)
        (SimulationService.calculate_simulated_trajectory historical ⟨0, 0⟩ months)).percentage_improvement
      = 0 := by
  have heq : SimulationService.calculate_simulated_trajectory historical ⟨0, 0⟩ months =
      SimulationService.calculate_current_trajectory historical months := by
    unfold SimulationService.calculate_simulated_trajectory
      SimulationService.calculate_current_trajectory
    norm_num
  refine ⟨heq, ?_, ?_⟩ <;>
  · rw [heq]
    unfold SimulationService.calculate_comparison
    simp [round2, roundHalfEven]

/-- C9 witness: the zero-adjustment theorem applied to monthly averages
income 10 / expenses 4 and a 3-month horizon. -/
theorem simulation_zero_adjustments_witness :
    SimulationService.calculate_simulated_trajectory ⟨10, 4⟩ ⟨0, 0⟩ 3 =
      SimulationService.calculate_current_trajectory ⟨10, 4⟩ 3 ∧
    (SimulationService.calculate_comparison
        (SimulationService.calculate_current_trajectory ⟨10, 4⟩ 3)
        (SimulationService.calculate_simulated_trajectory ⟨10, 4⟩ ⟨0, 0⟩ 3)).balance_difference
      = 0 ∧
    (SimulationService.calculate_comparison
        (SimulationService.calculate_current_trajectory ⟨10, 4⟩ 3)
        (SimulationService.calculate_simulated_trajectory ⟨10, 4⟩ ⟨0, 0⟩ 3)).percentage_improvement
      = 0 :=
  simulation_zero_adjustments ⟨10, 4⟩ 3 (by decide)

/-- C10: `BaseRepository.update` discards every `None` keyword argument
before writing, so an update can never set a stored nullable field
(`expires_at`) to null, and a call in which every supplied value is `None`
performs no write at all and returns the currently stored record
unchanged. -/
theorem update_discards_none (store : List AIPrediction) (id : ℕ)
    (k : UpdateKwargs) :
    BaseRepository.update store id {} = (BaseRepository.get_by_id store id, store) ∧
    (∀ p ∈ (BaseRepository.update store id k).2, p.expires_at = none →
      ∃ q ∈ store, q.id = p.id ∧ q.expires_at = none) := by
  constructor
  · rfl
  · intro p hp hnull
    unfold BaseRepository.update at hp
    by_cases hempty : k.isEmpty
    · simp only [hempty, if_pos] at hp
      exact ⟨p, hp, rfl, hnull⟩
    · simp only [hempty, if_neg, Bool.false_eq_true, not_false_eq_true] at hp
      rcases List.mem_map.mp hp with ⟨q, hq, hfq⟩
      by_cases hid : q.id == id
      · simp only [hid, if_pos] at hfq
        refine ⟨q, hq, ?_, ?_⟩
        · rw [← hfq]; rfl
        · rw [← hfq] at hnull
          unfold UpdateKwargs.apply at hnull
          revert hnull
          cases k.expires_at <;> simp
      · simp only [hid, Bool.false_eq_true, if_neg, not_false_eq_true] at hfq
        exact ⟨q, hq, by rw [hfq], by rw [hfq]; exact hnull⟩

/-- C10 witness: the no-write/no-nulling theorem applied to a concrete store,
id 1 and a status-only kwargs record. -/
theorem update_discards_none_witness :
    (BaseRepository.update activeStoreEx 1 {} =
      (BaseRepository.get_by_id activeStoreEx 1, activeStoreEx)) ∧
    (∀ p ∈ (BaseRepository.update activeStoreEx 1
        { status := some PredictionStatus.archived }).2,
      p.expires_at = none → ∃ q ∈ activeStoreEx, q.id = p.id ∧ q.expires_at = none) :=
  update_discards_none activeStoreEx 1 { status := some PredictionStatus.archived }

/-- C3 counterexample: dismissing the archived prediction of
`archivedStoreEx` does not leave the stored status `archived`; it overwrites
it to `dismissed`. -/
theorem dismiss_archived_changes_status :
    ((AIPredictionRepository.dismiss_prediction archivedStoreEx 1).2.map
        (fun p => p.status)) = [PredictionStatus.dismissed] ∧
    PredictionStatus.dismissed ≠ PredictionStatus.archived := by
  with_unfolding_all decide

/-- C3 amended: a dismiss operation is never an error, but it
unconditionally overwrites the stored status with `dismissed` — also on an
archived prediction, so there IS a transition out of `archived`; the
operation is idempotent only in the sense that every row it touches ends up
`dismissed`. -/
theorem dismiss_prediction_overwrites (store : List AIPrediction) (id : ℕ) :
    (∀ p ∈ (AIPredictionRepository.dismiss_prediction store id).2,
      p.id = id → p.status = PredictionStatus.dismissed) ∧
    (∀ r, BaseRepository.get_by_id store id = some r →
      ∃ u, (AIPredictionRepository.dismiss_prediction store id).1 = some u ∧
        u.status = PredictionStatus.dismissed) := by
  constructor
  · intro p hp hpid
    unfold AIPredictionRepository.dismiss_prediction BaseRepository.update at hp
    simp only [UpdateKwargs.isEmpty] at hp
    simp only [Option.isNone_some, Option.isNone_none, Bool.false_and,
      Bool.false_eq_true, if_neg, not_false_eq_true] at hp
    rcases List.mem_map.mp hp with ⟨q, _, hfq⟩
    by_cases hid : q.id == id
    · simp only [hid, if_pos] at hfq
      rw [← hfq]; rfl
    · simp only [hid, Bool.false_eq_true, if_neg, not_false_eq_true] at hfq
      exfalso
      apply hid
      rw [hfq, hpid]
      simp
  · intro r hr
    unfold AIPredictionRepository.dismiss_prediction BaseRepository.update
    simp only [UpdateKwargs.isEmpty, Option.isNone_some, Option.isNone_none,
      Bool.false_and, Bool.false_eq_true, if_neg, not_false_eq_true]
    exact ⟨_, by rw [hr]; rfl, rfl⟩

/-- C3 amended witness: the overwrite theorem applied to the archived store,
together with a direct check that the stored record was archived before the
call. -/
theorem dismiss_prediction_overwrites_witness :
    ((∀ p ∈ (AIPredictionRepository.dismiss_prediction archivedStoreEx 1).2,
        p.id = 1 → p.status = PredictionStatus.dismissed) ∧
      (∀ r, BaseRepository.get_by_id archivedStoreEx 1 = some r →
        ∃ u, (AIPredictionRepository.dismiss_prediction archivedStoreEx 1).1 = some u ∧
          u.status = PredictionStatus.dismissed)) ∧
    (BaseRepository.get_by_id archivedStoreEx 1).map (fun p => p.status) =
      some PredictionStatus.archived :=
  ⟨dismiss_prediction_overwrites archivedStoreEx 1, by with_unfolding_all decide⟩

/-- C2: a prediction of the queried user (passing the optional type filter)
whose status is `active` is returned by `get_active_predictions` exactly when
its `expires_at` is null or strictly in the future; a stale prediction
(`expires_at` at or before now) is excluded even though its stored status is
still `active`. -/
theorem get_active_predictions_mem_iff (store : List AIPrediction)
    (user_id : ℕ) (ptype : Option PredictionType) (now : ℕ) (p : AIPrediction)
    (hmem : p ∈ store) (huser : p.user_id = user_id)
    (hstatus : p.status = PredictionStatus.active)
    (htype : ∀ ty, ptype = some ty → p.type = ty) :
    p ∈ AIPredictionRepository.get_active_predictions store user_id ptype now ↔
      (p.expires_at = none ∨ ∃ t, p.expires_at = some t ∧ now < t) := by
  unfold AIPredictionRepository.get_active_predictions
  rw [(List.perm_insertionSort _ _).mem_iff, List.mem_filter]
  unfold AIPredictionRepository.activeCond
  constructor
  · intro h
    rcases h with ⟨-, hcond⟩
    simp only [Bool.and_eq_true] at hcond
    rcases hcond with ⟨⟨-, hexp⟩, -⟩
    cases hx : p.expires_at with
    | none => exact Or.inl rfl
    | some t =>
      refine Or.inr ⟨t, rfl, ?_⟩
      rw [hx] at hexp
      simpa using hexp
  · intro h
    refine ⟨hmem, ?_⟩
    simp only [Bool.and_eq_true, beq_iff_eq, decide_eq_true_eq]
    refine ⟨⟨⟨huser, hstatus⟩, ?_⟩, ?_⟩
    · rcases h with hnone | ⟨t, hsome, ht⟩
      · rw [hnone]
      · rw [hsome]
        simpa using ht
    · cases hty : ptype with
      | none => simp
      | some ty => simpa using htype ty hty

/-- C2 witness: the membership characterisation applied to a store holding
one never-expiring active prediction of user 7: the prediction is returned at
time 5. -/
theorem get_active_predictions_mem_iff_witness :
    ({ id := 1, user_id := 7, type := PredictionType.financial_health,
       confidence_score := 9/10, expires_at := none,
       status := PredictionStatus.active, created_at := 3 } : AIPrediction) ∈
      AIPredictionRepository.get_active_predictions activeStoreEx 7 none 5 :=
  (get_active_predictions_mem_iff activeStoreEx 7 none 5 _
    (List.mem_singleton.mpr rfl) rfl rfl
    (fun ty hty => by cases hty)).mpr (Or.inl rfl)

/-! Helper lemmas for the `archive_expired_predictions` claims. -/

theorem expiredCond_archived_false (user_id : Option ℕ) (now : ℕ)
    (p : AIPrediction) :
    AIPredictionRepository.expiredCond user_id now
      { p with status := PredictionStatus.archived } = false := by
  unfold AIPredictionRepository.expiredCond
  simp

theorem get_expired_eq_sort_of_le (store : List AIPrediction)
    (user_id : Option ℕ) (now : ℕ)
    (h : (store.filter (AIPredictionRepository.expiredCond user_id now)).length ≤ 100) :
    AIPredictionRepository.get_expired_predictions store user_id now 100 =
      List.insertionSort (fun p q => p.expires_at.getD 0 ≤ q.expires_at.getD 0)
        (store.filter (AIPredictionRepository.expiredCond user_id now)) := by
  unfold AIPredictionRepository.get_expired_predictions
  apply List.take_of_length_le
  rw [(List.perm_insertionSort _ _).length_eq]
  exact h

theorem bulk_update_count_eq_length (store : List AIPrediction) (ids : List ℕ)
    (h : ∀ i ∈ ids, store.countP (fun p => p.id == i) = 1) :
    AIPredictionRepository.bulk_update_count store ids = ids.length := by
  unfold AIPredictionRepository.bulk_update_count
  suffices hgen : ∀ (l : List ℕ) (acc : ℕ), (∀ i ∈ l, store.countP (fun p => p.id == i) = 1) →
      l.foldl (fun acc i => acc + store.countP (fun p => p.id == i)) acc = acc + l.length by
    simpa using hgen ids 0 h
  intro l
  induction l with
  | nil => intro acc _; simp
  | cons i rest ih =>
    intro acc hl
    simp only [List.foldl_cons, List.length_cons]
    rw [hl i (List.mem_cons_self i rest), ih (acc + 1) (fun j hj => hl j (List.mem_cons_of_mem i hj))]
    omega

set_option maxRecDepth 8000 in
/-- C4 counterexample: on a table with 101 stale active predictions,
`archive_expired_predictions` archives only the 100 rows returned by the
`limit=100` fetch, so the immediately repeated second call still finds work
and returns 1, not 0. -/
theorem archive_expired_not_idempotent :
    (AIPredictionRepository.archive_expired_predictions staleStoreEx none 1).1 = 100 ∧
    (AIPredictionRepository.archive_expired_predictions
      (AIPredictionRepository.archive_expired_predictions staleStoreEx none 1).2
      none 1).1 = 1 ∧ (1 : ℕ) ≠ 0 := by
  with_unfolding_all decide

/-- C4 amended: when at most 100 predictions are stale (the `limit=100`
batch bound of the underlying fetch), `archive_expired_predictions`
transitions every stale active prediction to archived, returns their count
(for a table with unique primary keys), and an immediately repeated second
call finds no remaining stale active prediction and returns 0. -/
theorem archive_expired_idempotent_of_le_batch (store : List AIPrediction)
    (user_id : Option ℕ) (now : ℕ)
    (hnodup : (store.map (fun p => p.id)).Nodup)
    (hle : (store.filter (AIPredictionRepository.expiredCond user_id now)).length ≤ 100) :
    (AIPredictionRepository.archive_expired_predictions store user_id now).1 =
      (store.filter (AIPredictionRepository.expiredCond user_id now)).length ∧
    (∀ p ∈ (AIPredictionRepository.archive_expired_predictions store user_id now).2,
      AIPredictionRepository.expiredCond user_id now p = false) ∧
    (AIPredictionRepository.archive_expired_predictions
      (AIPredictionRepository.archive_expired_predictions store user_id now).2
      user_id now).1 = 0 := by
  classical
  have hsort := get_expired_eq_sort_of_le store user_id now hle
  have hperm : List.Perm
      (List.insertionSort (fun p q => p.expires_at.getD 0 ≤ q.expires_at.getD 0)
        (store.filter (AIPredictionRepository.expiredCond user_id now)))
      (store.filter (AIPredictionRepository.expiredCond user_id now)) :=
    List.perm_insertionSort _ _
  have harch : AIPredictionRepository.archive_expired_predictions store user_id now =
      AIPredictionRepository.applyArchive store
        (List.insertionSort (fun p q => p.expires_at.getD 0 ≤ q.expires_at.getD 0)
          (store.filter (AIPredictionRepository.expiredCond user_id now))) := by
    unfold AIPredictionRepository.archive_expired_predictions
    rw [hsort]
  by_cases hnilc : store.filter (AIPredictionRepository.expiredCond user_id now) = []
  · -- no stale prediction at all: both calls return 0 and the table is untouched
    have hres : AIPredictionRepository.archive_expired_predictions store user_id now =
        (0, store) := by
      rw [harch, hnilc]
      rfl
    have hnostale : ∀ p ∈ store, AIPredictionRepository.expiredCond user_id now p = false := by
      intro p hp
      by_contra hc
      have hmem : p ∈ store.filter (AIPredictionRepository.expiredCond user_id now) :=
        List.mem_filter.mpr ⟨hp,
          by revert hc; cases AIPredictionRepository.expiredCond user_id now p <;> simp⟩
      rw [hnilc] at hmem
      cases hmem
    refine ⟨?_, ?_, ?_⟩
    · rw [hres, hnilc]
      rfl
    · intro p hp
      rw [hres] at hp
      exact hnostale p hp
    · rw [hres]
      show (AIPredictionRepository.archive_expired_predictions store user_id now).1 = 0
      rw [hres]
  · -- nonempty batch: the fetched batch is exactly the stale set
    have hsorted_ne : List.insertionSort
        (fun p q => p.expires_at.getD 0 ≤ q.expires_at.getD 0)
        (store.filter (AIPredictionRepository.expiredCond user_id now)) ≠ [] :=
      fun hnil => hnilc (List.Perm.eq_nil (hnil ▸ hperm.symm))
    have hnotE : ¬ ((List.insertionSort
        (fun p q => p.expires_at.getD 0 ≤ q.expires_at.getD 0)
        (store.filter (AIPredictionRepository.expiredCond user_id now))).isEmpty = true) :=
      fun h => hsorted_ne (List.isEmpty_iff.mp h)
    have happly : AIPredictionRepository.archive_expired_predictions store user_id now =
        (AIPredictionRepository.bulk_update_count store
          ((List.insertionSort (fun p q => p.expires_at.getD 0 ≤ q.expires_at.getD 0)
            (store.filter (AIPredictionRepository.expiredCond user_id now))).map
              (fun p => p.id)),
         store.map (fun p =>
           if ((List.insertionSort (fun p q => p.expires_at.getD 0 ≤ q.expires_at.getD 0)
             (store.filter (AIPredictionRepository.expiredCond user_id now))).map
               (fun p => p.id)).contains p.id then
             { p with status := PredictionStatus.archived }
           else p)) := by
      rw [harch]
      unfold AIPredictionRepository.applyArchive
      rw [if_neg hnotE]
    -- every row of the updated table fails the stale condition
    have hclean : ∀ p ∈ (AIPredictionRepository.archive_expired_predictions store user_id now).2,
        AIPredictionRepository.expiredCond user_id now p = false := by
      intro p2 hp2
      rw [happly] at hp2
      rcases List.mem_map.mp hp2 with ⟨p, hp, hgp⟩
      by_cases hin : ((List.insertionSort (fun p q => p.expires_at.getD 0 ≤ q.expires_at.getD 0)
          (store.filter (AIPredictionRepository.expiredCond user_id now))).map
            (fun p => p.id)).contains p.id
      · rw [if_pos hin] at hgp
        rw [← hgp]
        exact expiredCond_archived_false user_id now p
      · rw [if_neg hin] at hgp
        rw [← hgp]
        by_contra hc
        apply hin
        have hpst : p ∈ store.filter (AIPredictionRepository.expiredCond user_id now) :=
          List.mem_filter.mpr ⟨hp,
            by revert hc; cases AIPredictionRepository.expiredCond user_id now p <;> simp⟩
        have hpsort := hperm.mem_iff.mpr hpst
        exact List.contains_iff_exists_mem_beq.mpr
          ⟨p.id, List.mem_map.mpr ⟨p, hpsort, rfl⟩, by simp⟩
    refine ⟨?_, hclean, ?_⟩
    · -- the returned count is the number of stale predictions
      rw [happly]
      show AIPredictionRepository.bulk_update_count store _ =
        (store.filter (AIPredictionRepository.expiredCond user_id now)).length
      have hlen : ((List.insertionSort (fun p q => p.expires_at.getD 0 ≤ q.expires_at.getD 0)
          (store.filter (AIPredictionRepository.expiredCond user_id now))).map
            (fun p => p.id)).length =
          (store.filter (AIPredictionRepository.expiredCond user_id now)).length := by
        rw [List.length_map, hperm.length_eq]
      rw [← hlen]
      apply bulk_update_count_eq_length
      intro i hi
      rcases List.mem_map.mp hi with ⟨p, hpexp, hpid⟩
      have hpstore : p ∈ store :=
        (List.mem_filter.mp (hperm.mem_iff.mp hpexp)).1
      have hcnt : List.countP (fun q => q.id == i) store =
          List.count i (store.map (fun p => p.id)) := by
        rw [List.count, List.countP_map]
        rfl
      rw [hcnt]
      exact List.count_eq_one_of_mem hnodup (List.mem_map.mpr ⟨p, hpstore, hpid⟩)
    · -- the second call fetches nothing and returns 0
      set store2 := (AIPredictionRepository.archive_expired_predictions store user_id now).2
        with hstore2
      have hfilter_nil :
          store2.filter (AIPredictionRepository.expiredCond user_id now) = [] := by
        rw [List.filter_eq_nil_iff]
        intro p hp
        rw [hclean p hp]
        exact Bool.false_ne_true
      have h2 : AIPredictionRepository.get_expired_predictions store2 user_id now 100 = [] := by
        unfold AIPredictionRepository.get_expired_predictions
        rw [hfilter_nil]
        rfl
      show (AIPredictionRepository.applyArchive store2
        (AIPredictionRepository.get_expired_predictions store2 user_id now 100)).1 = 0
      rw [h2]
      rfl

/-- C4 amended witness: a table with one stale active prediction: the first
call archives it and returns 1; the second call returns 0. -/
theorem archive_expired_idempotent_witness :
    ((AIPredictionRepository.archive_expired_predictions smallStaleStoreEx none 1).1 =
      (smallStaleStoreEx.filter (AIPredictionRepository.expiredCond none 1)).length ∧
    (∀ p ∈ (AIPredictionRepository.archive_expired_predictions smallStaleStoreEx none 1).2,
      AIPredictionRepository.expiredCond none 1 p = false) ∧
    (AIPredictionRepository.archive_expired_predictions
      (AIPredictionRepository.archive_expired_predictions smallStaleStoreEx none 1).2
      none 1).1 = 0) ∧
    (smallStaleStoreEx.filter (AIPredictionRepository.expiredCond none 1)).length = 1 :=
  ⟨archive_expired_idempotent_of_le_batch smallStaleStoreEx none 1
    (by with_unfolding_all decide) (by with_unfolding_all decide),
   by with_unfolding_all decide⟩

/-- C5: no budget-threshold recommendation is ever emitted:
`RecommendationService.__init__` never binds `self.budget_repo`, so the
generator's repository access raises `AttributeError`, the `except` handler
swallows it, and the result is always empty — even though the loop body,
were it reachable, would emit an "urgent" recommendation for an exceeded
budget and a "high" one for a budget at its alert threshold. -/
theorem budget_recommendations_never_emitted :
    (∀ budgets : List Budget,
      RecommendationService.generate_budget_recommendations
        RecommendationService.initBudgetRepoAttr budgets = []) ∧
    (∃ r ∈ RecommendationService.budgetRecommendationsBody
        [{ amount := 100, spent_amount := 120, alert_threshold := 80,
           category_name := some "Alimentação" }],
      r.priority = "urgent") ∧
    (∃ r ∈ RecommendationService.budgetRecommendationsBody
        [{ amount := 100, spent_amount := 85, alert_threshold := 80,
           category_name := none }],
      r.priority = "high") := by
  refine ⟨fun budgets => rfl, ?_, ?_⟩ <;> with_unfolding_all decide

set_option maxRecDepth 8000 in
/-- C6 counterexample: on the §8 example input (three months, income
R$5000/month, expenses R$3000/month, "Dining" at R$1200/month = 40% of
expenses) the spending-concentration recommendation for "Dining" has
priority "medium" — 40% does not exceed the strict `> 40` threshold — and
potential impact R$540 (15% of the 90-day category total R$3600), not
"high" with impact ≈ R$180. -/
theorem spending_recommendation_dining_cx :
    (∃ r ∈ RecommendationService.generate_spending_recommendations spendingTxsEx,
      r.title = "Otimize Gastos com Dining" ∧ r.priority = "medium" ∧
      r.potential_impact = 540) ∧
    (∀ r ∈ RecommendationService.generate_spending_recommendations spendingTxsEx,
      r.title = "Otimize Gastos com Dining" →
        r.priority ≠ "high" ∧ r.potential_impact ≠ 180) := by
  with_unfolding_all decide

set_option maxRecDepth 8000 in
/-- C6 amended: on the §8 example input the engine produces a
spending-concentration recommendation for "Dining" with priority "medium"
and potential monthly impact R$540 = 15% of the R$3600 the category
accumulates over the whole 3-month window. -/
theorem spending_recommendation_dining_amended :
    ∃ r ∈ RecommendationService.generate_spending_recommendations spendingTxsEx,
      r.title = "Otimize Gastos com Dining" ∧ r.priority = "medium" ∧
      r.potential_impact = 540 ∧ r.potential_impact = (15/100) * 3600 := by
  with_unfolding_all decide

/-! Helper lemmas for the anomaly-detection claim. -/

theorem le_foldl_max (l : List ℚ) (a : ℚ) : a ≤ l.foldl Max.max a := by
  induction l generalizing a with
  | nil => exact le_refl a
  | cons x xs ih =>
    exact le_trans (le_max_left a x) (ih (max a x))

theorem anomalyFor_transaction_id
    (bas : String → Option PatternAnalysisService.CategoryBaseline)
    (t : Transaction) (a : PatternAnalysisService.AnomalyDetection)
    (h : PatternAnalysisService.anomalyFor bas t = some a) :
    a.transaction_id = t.id := by
  unfold PatternAnalysisService.anomalyFor at h
  split at h
  · cases hbas : bas t.category_name with
    | none => rw [hbas] at h; cases h
    | some baseline =>
      rw [hbas] at h
      dsimp only at h
      split at h
      · cases h
        rfl
      · cases h
  · cases h

theorem baseline_max_pos (historical : List Transaction) (c : String)
    (b : PatternAnalysisService.CategoryBaseline)
    (hb : PatternAnalysisService.calculate_category_baselines historical c = some b)
    (hpos : ∀ t ∈ historical, 0 < t.amount) : 0 < b.max := by
  unfold PatternAnalysisService.calculate_category_baselines at hb
  cases hamounts : (historical.filter
      (fun t => t.type == TransactionType.expense && t.category_name == c)).map
    (fun t => t.amount) with
  | nil => rw [hamounts] at hb; cases hb
  | cons a rest =>
    rw [hamounts] at hb
    dsimp only at hb
    cases hb
    have hamem : a ∈ (historical.filter
        (fun t => t.type == TransactionType.expense && t.category_name == c)).map
      (fun t => t.amount) := by
      rw [hamounts]
      exact List.mem_cons_self a rest
    rcases List.mem_map.mp hamem with ⟨t, ht, hta⟩
    have hth : t ∈ historical := (List.mem_filter.mp ht).1
    have hapos : 0 < a := hta ▸ hpos t hth
    exact lt_of_lt_of_le hapos (le_foldl_max rest a)

/-- C7: a recent expense transaction whose category has a historical
baseline is flagged as anomalous iff its amount strictly exceeds
`baseline.max × 1.5`; every reported anomaly score lies in [0, 1]; and a
transaction whose amount equals `baseline.max` is never flagged
(assuming positive historical amounts and unique transaction ids). -/
theorem detect_anomalies_spec (recent historical : List Transaction)
    (tx : Transaction) (b : PatternAnalysisService.CategoryBaseline)
    (hmem : tx ∈ recent) (hexp : tx.type = TransactionType.expense)
    (hb : PatternAnalysisService.calculate_category_baselines historical
      tx.category_name = some b)
    (hpos : ∀ t ∈ historical, 0 < t.amount)
    (hids : (recent.map (fun t => t.id)).Nodup) :
    ((∃ a ∈ PatternAnalysisService.detect_anomalies recent historical,
        a.transaction_id = tx.id) ↔ b.max * (3/2) < tx.amount) ∧
    (∀ a ∈ PatternAnalysisService.detect_anomalies recent historical,
      0 ≤ a.anomaly_score ∧ a.anomaly_score ≤ 1) ∧
    (tx.amount = b.max →
      ¬ ∃ a ∈ PatternAnalysisService.detect_anomalies recent historical,
          a.transaction_id = tx.id) := by
  have hbmax : 0 < b.max := baseline_max_pos historical tx.category_name b hb hpos
  have hiff : (∃ a ∈ PatternAnalysisService.detect_anomalies recent historical,
      a.transaction_id = tx.id) ↔ b.max * (3/2) < tx.amount := by
    constructor
    · rintro ⟨a, ha, haid⟩
      rcases List.mem_filterMap.mp ha with ⟨t, htmem, hat⟩
      have htid : a.transaction_id = t.id := anomalyFor_transaction_id _ t a hat
      have hteq : t = tx :=
        List.inj_on_of_nodup_map hids htmem hmem (by rw [← htid, haid])
      subst hteq
      unfold PatternAnalysisService.anomalyFor at hat
      rw [if_pos (by rw [hexp]; rfl)] at hat
      rw [hb] at hat
      dsimp only at hat
      split at hat
      · assumption
      · cases hat
    · intro hcond
      have hsome : PatternAnalysisService.anomalyFor
          (PatternAnalysisService.calculate_category_baselines historical) tx =
          some { transaction_id := tx.id, category := tx.category_name,
                 amount := tx.amount, expected_min := b.min, expected_max := b.max,
                 anomaly_score := round2 (min ((tx.amount - b.max) / b.max) 1),
                 detected_at := tx.transaction_date, is_recurring := false,
                 suggestion_percentage := (tx.amount / b.avg - 1) * 100 } := by
        unfold PatternAnalysisService.anomalyFor
        rw [if_pos (by rw [hexp]; rfl)]
        rw [hb]
        dsimp only
        rw [if_pos hcond]
      exact ⟨_, List.mem_filterMap.mpr ⟨tx, hmem, hsome⟩, rfl⟩
  refine ⟨hiff, ?_, ?_⟩
  · intro a ha
    rcases List.mem_filterMap.mp ha with ⟨t, htmem, hat⟩
    unfold PatternAnalysisService.anomalyFor at hat
    split at hat
    · cases hbas : PatternAnalysisService.calculate_category_baselines historical
        t.category_name with
      | none => rw [hbas] at hat; cases hat
      | some b2 =>
        rw [hbas] at hat
        dsimp only at hat
        split at hat
        · rename_i hcond
          cases hat
          have hb2 : 0 < b2.max := baseline_max_pos historical t.category_name b2 hbas hpos
          have hge : b2.max ≤ t.amount := by nlinarith
          have hx0 : 0 ≤ min ((t.amount - b2.max) / b2.max) 1 :=
            le_min (div_nonneg (by linarith) (le_of_lt hb2)) (by norm_num)
          have hx1 : min ((t.amount - b2.max) / b2.max) 1 ≤ 1 := min_le_right _ _
          exact ⟨round2_nonneg hx0, round2_le_one hx1⟩
        · cases hat
    · cases hat
  · intro heq hexists
    have := hiff.mp hexists
    rw [heq] at this
    nlinarith

/-- C7 witness: the R$850 "Lazer" expense against a historical baseline of
max R$450 is flagged, and its (only) anomaly score is 0.89. -/
theorem detect_anomalies_spec_witness :
    (∃ a ∈ PatternAnalysisService.detect_anomalies anomalyRecentEx anomalyHistEx,
      a.transaction_id = 2) ∧
    (PatternAnalysisService.detect_anomalies anomalyRecentEx anomalyHistEx).map
      (fun a => a.anomaly_score) = [89/100] :=
  ⟨(detect_anomalies_spec anomalyRecentEx anomalyHistEx
      { id := 2, type := TransactionType.expense, amount := 850,
        category_name := "Lazer", transaction_date := 10 }
      { min := 450, max := 450, avg := 450 }
      (List.mem_singleton.mpr rfl) rfl
      (by with_unfolding_all decide)
      (by with_unfolding_all decide)
      (by with_unfolding_all decide)).1.mpr (by norm_num),
   by with_unfolding_all decide⟩

set_option maxRecDepth 8000 in
/-- C8: the category-correlation report is NOT the top-3 pairs sorted by
co-occurrence: on `correlationTxsEx` the pair (C, D) has the largest
co-occurrence count (5 days) yet is absent from the report, which instead
holds the first three enumerated qualifying pairs, each with only 3
co-occurrence days. -/
theorem correlations_first3_not_top3 :
    ((PatternAnalysisService.analyze_category_correlations correlationTxsEx).map
        (fun c => c.categories)) = [["A", "B"], ["A", "C"], ["A", "D"]] ∧
    PatternAnalysisService.coOccurrence correlationTxsEx "C" "D" = 5 ∧
    PatternAnalysisService.coOccurrence correlationTxsEx "A" "B" = 3 ∧
    PatternAnalysisService.coOccurrence correlationTxsEx "A" "C" = 3 ∧
    PatternAnalysisService.coOccurrence correlationTxsEx "A" "D" = 3 ∧
    (∀ c ∈ PatternAnalysisService.analyze_category_correlations correlationTxsEx,
      c.categories ≠ ["C", "D"] ∧ c.categories ≠ ["D", "C"]) := by
  with_unfolding_all decide

end MeuFuturo
